import Mathlib

/-!
Shallow embedding of the AeroNyx nodeboard client (TypeScript) in Lean 4.

Embedded components:
* the global auth store (`stores/authStore.ts`): state fields, `initialize`
  (here `initAuth`, since the original name collides with a Lean keyword-like
  token), `connectWallet`, `login`, `logout`, `clearError`;
* the API client's `request` 401 handling (`lib/api.ts`);
* the react-query cache keys and mutation invalidation rules
  (`hooks/useNodes.ts`, `hooks/useRegistrationCodes.ts`);
* the registration-code countdown `getCodeTimeRemaining` and the aggregated
  stats computation `useAggregatedStats`.

JavaScript numbers are modelled as `ℚ` where fractional values occur and as
`Nat`/`Int` where the code only produces integers.  Browser-injected wallet
objects and network responses are modelled as explicit environment values:
each `await` whose result comes from outside the program is a field of an
environment record, `Except` capturing a thrown promise rejection.
-/

namespace AeroNyx

/-- `ERROR_MESSAGES.WALLET_NOT_FOUND` from `lib/constants.ts`. -/
def WALLET_NOT_FOUND : String := "Wallet not detected. Please install a Web3 wallet."

/-- `ERROR_MESSAGES.WALLET_CONNECTION_FAILED` from `lib/constants.ts`. -/
def WALLET_CONNECTION_FAILED : String := "Failed to connect wallet. Please try again."

/-- `ERROR_MESSAGES.SIGNATURE_FAILED` from `lib/constants.ts`. -/
def SIGNATURE_FAILED : String := "Signature verification failed. Please try again."

/-- Message thrown by the API client on HTTP 401 (`lib/api.ts`). -/
def SESSION_EXPIRED : String := "Session expired. Please reconnect your wallet."

/-- `WalletProvider` union type from `types/index.ts`. -/
inductive WalletProvider where
  | phantom
  | metamask
  | okx
deriving DecidableEq, Repr

/-- `WalletInfo` from `types/index.ts`; `type` is the runtime string
`"ETH"` or `"SOL"`. -/
structure WalletInfo where
  address : String
  type : String
  provider : WalletProvider
deriving DecidableEq, Repr

/-- The auth store's state fields (`stores/authStore.ts`). -/
structure AuthState where
  apiKey : Option String
  walletAddress : Option String
  walletType : Option String
  walletProvider : Option WalletProvider
  isAuthenticated : Bool
  isLoading : Bool
  error : Option String
deriving DecidableEq, Repr

/-- The three persisted `localStorage` keys (`STORAGE_KEYS`), each holding a
string or absent. -/
structure Storage where
  apiKey : Option String
  walletAddress : Option String
  walletType : Option String
deriving DecidableEq, Repr

/-- Whole-client state: the store, persisted storage, how many
`auth:logout` listeners have been registered (by `initialize`), and how many
`auth:logout` events have been dispatched (by the API client on 401). -/
structure World where
  store : AuthState
  storage : Storage
  listeners : Nat
  logoutEvents : Nat
deriving DecidableEq, Repr

/-- The auth store's creation-time state (`create<AuthState>` initial
object): everything null / false. -/
def initialAuthState : AuthState :=
  ⟨none, none, none, none, false, false, none⟩

/-- Process start: empty store, given persisted storage, no listeners. -/
def startWorld (st : Storage) : World :=
  ⟨initialAuthState, st, 0, 0⟩

/-- Process start with empty persisted storage. -/
def initialWorld : World :=
  startWorld ⟨none, none, none⟩

/-- JavaScript truthiness of a `localStorage.getItem` result: `null` and the
empty string are falsy. -/
def jsTruthy : Option String → Bool
  | none => false
  | some s => !s.isEmpty

/-- `logout` from `stores/authStore.ts`: removes the three storage keys,
best-effort disconnects a Solana wallet (no state effect), and resets the
in-memory state.  Registered listeners survive. -/
def logout (w : World) : World :=
  { w with
    storage := ⟨none, none, none⟩
    store := initialAuthState }

/-- Run the `auth:logout` listeners registered so far; each listener body is
`get().logout()`. -/
def runLogoutListeners : Nat → World → World
  | 0, w => w
  | n + 1, w => runLogoutListeners n (logout w)

/-- `window.dispatchEvent(new CustomEvent('auth:logout'))`: bumps the event
counter and runs every registered listener. -/
def dispatchAuthLogout (w : World) : World :=
  let w' := runLogoutListeners w.listeners w
  { w' with logoutEvents := w'.logoutEvents + 1 }

/-- `initialize` from `stores/authStore.ts` (renamed `initAuth`): reads the
three persisted keys, and if all are truthy sets them on the store and marks
the session authenticated; then registers an `auth:logout` listener.  There
is no guard flag: every call runs the whole body again. -/
def initAuth (w : World) : World :=
  let w' :=
    if jsTruthy w.storage.apiKey && jsTruthy w.storage.walletAddress
        && jsTruthy w.storage.walletType then
      { w with store := { w.store with
          apiKey := w.storage.apiKey
          walletAddress := w.storage.walletAddress
          walletType := w.storage.walletType
          isAuthenticated := true } }
    else w
  { w' with listeners := w'.listeners + 1 }

/-- `clearError` from `stores/authStore.ts`. -/
def clearError (w : World) : World :=
  { w with store := { w.store with error := none } }

/-- A Solana-style injected wallet object (`window.solana`,
`window.okxwallet.solana`): the `isPhantom` flag, the `connect()` result
(the public key string, or a rejection), and the `signMessage` result
(signature bytes, or a rejection). -/
structure SolanaWallet where
  isPhantom : Bool
  connectResult : Except String String
  signResult : Except String (List Nat)

/-- An Ethereum-style injected wallet object (`window.ethereum`,
`window.okxwallet.ethereum`): the `isMetaMask` flag, the
`eth_requestAccounts` result, and the `personal_sign` result. -/
structure EthereumWallet where
  isMetaMask : Bool
  accountsResult : Except String (List String)
  signResult : Except String String

/-- The browser wallet environment: which injected objects exist and how
their calls resolve. -/
structure WalletEnv where
  solana : Option SolanaWallet
  ethereum : Option EthereumWallet
  okxSolana : Option SolanaWallet
  okxEthereum : Option EthereumWallet

/-- `connectPhantom` from `stores/authStore.ts`. -/
def connectPhantom (env : WalletEnv) : Except String WalletInfo :=
  match env.solana with
  | none => .error (WALLET_NOT_FOUND ++ " Please install Phantom.")
  | some sol =>
    if !sol.isPhantom then
      .error (WALLET_NOT_FOUND ++ " Please install Phantom.")
    else
      match sol.connectResult with
      | .ok addr => .ok ⟨addr, "SOL", .phantom⟩
      | .error _ => .error WALLET_CONNECTION_FAILED

/-- `connectMetaMask` from `stores/authStore.ts`. -/
def connectMetaMask (env : WalletEnv) : Except String WalletInfo :=
  match env.ethereum with
  | none => .error (WALLET_NOT_FOUND ++ " Please install MetaMask.")
  | some eth =>
    if !eth.isMetaMask then
      .error (WALLET_NOT_FOUND ++ " Please install MetaMask.")
    else
      match eth.accountsResult with
      | .error _ => .error WALLET_CONNECTION_FAILED
      | .ok [] => .error WALLET_CONNECTION_FAILED
      | .ok (a :: _) => .ok ⟨a, "ETH", .metamask⟩

/-- `connectOKX` from `stores/authStore.ts`: try the Solana namespace, fall
through to the Ethereum namespace, else wallet-not-found. -/
def connectOKX (env : WalletEnv) : Except String WalletInfo :=
  match env.okxSolana with
  | some sol =>
    match sol.connectResult with
    | .ok addr => .ok ⟨addr, "SOL", .okx⟩
    | .error _ => connectOKXEthereum env
  | none => connectOKXEthereum env
where
  /-- The Ethereum fallback half of `connectOKX`. -/
  connectOKXEthereum (env : WalletEnv) : Except String WalletInfo :=
    match env.okxEthereum with
    | some eth =>
      match eth.accountsResult with
      | .ok (a :: _) => .ok ⟨a, "ETH", .okx⟩
      | _ => .error (WALLET_NOT_FOUND ++ " Please install OKX Wallet.")
    | none => .error (WALLET_NOT_FOUND ++ " Please install OKX Wallet.")

/-- `connectWallet` from `stores/authStore.ts`: sets loading, dispatches on
the provider, stores the provider on success, records the error message and
rethrows on failure.  (The `default: throw` branch of the switch is
unreachable at the `WalletProvider` type.)  Note the code leaves
`isLoading` true on the success path. -/
def connectWallet (w : World) (env : WalletEnv) (provider : WalletProvider) :
    World × Except String WalletInfo :=
  let w1 := { w with store := { w.store with isLoading := true, error := none } }
  let attempt :=
    match provider with
    | .phantom => connectPhantom env
    | .metamask => connectMetaMask env
    | .okx => connectOKX env
  match attempt with
  | .ok info =>
    ({ w1 with store := { w1.store with walletProvider := some provider } }, .ok info)
  | .error msg =>
    ({ w1 with store := { w1.store with error := some msg, isLoading := false } },
      .error msg)

/-- One hex digit, lowercase, as produced by `Number.prototype.toString(16)`. -/
def hexDigitChar (n : Nat) : Char :=
  "0123456789abcdef".toList.getD n '0'

/-- `b.toString(16).padStart(2, '0')` for a `Uint8Array` entry (`b < 256`). -/
def byteToHex (b : Nat) : String :=
  String.mk [hexDigitChar (b / 16 % 16), hexDigitChar (b % 16)]

/-- The hex-join over signature bytes in `signSolanaMessage`. -/
def bytesToHex (bs : List Nat) : String :=
  String.join (bs.map byteToHex)

/-- `signSolanaMessage` from `stores/authStore.ts`: pick the signer by
provider, propagate a wallet rejection, hex-encode the signature bytes;
`SIGNATURE_FAILED` when no matching signer exists. -/
def signSolanaMessage (env : WalletEnv) (_message : String)
    (provider : WalletProvider) : Except String String :=
  if provider = .phantom then
    match env.solana with
    | some sol => sol.signResult.map bytesToHex
    | none => .error SIGNATURE_FAILED
  else if provider = .okx then
    match env.okxSolana with
    | some sol => sol.signResult.map bytesToHex
    | none => .error SIGNATURE_FAILED
  else .error SIGNATURE_FAILED

/-- `signEthereumMessage` from `stores/authStore.ts`. -/
def signEthereumMessage (env : WalletEnv) (_message _address : String)
    (provider : WalletProvider) : Except String String :=
  if provider = .metamask then
    match env.ethereum with
    | some eth => eth.signResult
    | none => .error SIGNATURE_FAILED
  else if provider = .okx then
    match env.okxEthereum with
    | some eth => eth.signResult
    | none => .error SIGNATURE_FAILED
  else .error SIGNATURE_FAILED

/-- Outcome of one HTTP exchange as seen by `request` in `lib/api.ts`:
a 2xx body, a 401, or any other failure (non-2xx body or transport error,
both of which `request` turns into a thrown message). -/
inductive ApiOutcome (α : Type) where
  | ok (value : α)
  | unauthorized
  | failure (msg : String)

/-- `true` unless the outcome is a 2xx body. -/
def ApiOutcome.isFailure {α : Type} : ApiOutcome α → Bool
  | .ok _ => false
  | .unauthorized => true
  | .failure _ => true

/-- The `request` method of the API client (`lib/api.ts`), running in the
browser: on 401 it removes the three persisted auth keys, dispatches
`auth:logout`, and throws `SESSION_EXPIRED`; on any other failure it throws
the error message; on success it returns the body. -/
def apiRequest {α : Type} (w : World) (outcome : ApiOutcome α) :
    World × Except String α :=
  match outcome with
  | .ok v => (w, .ok v)
  | .unauthorized =>
    let w1 := { w with storage := ⟨none, none, none⟩ }
    (dispatchAuthLogout w1, .error SESSION_EXPIRED)
  | .failure msg => (w, .error msg)

/-- `NonceResponse` from `types/index.ts`. -/
structure NonceResponse where
  nonce : String
  message : String
  is_new_user : Bool

/-- The `user` object of `LoginResponse` from `types/index.ts`. -/
structure LoginUser where
  id : String
  wallet_address : String
  wallet_type : String

/-- `LoginResponse` from `types/index.ts`. -/
structure LoginResponse where
  api_key : String
  user : LoginUser
  message : String

/-- The external inputs of one `login` call: the nonce request's outcome,
the wallet environment used for signing, and the login request's outcome. -/
structure LoginEnv where
  nonceOutcome : ApiOutcome NonceResponse
  wallets : WalletEnv
  loginOutcome : ApiOutcome LoginResponse

/-- The signing step of `login`: `signMessage` for a Solana-type wallet,
`personal_sign` otherwise. -/
def signatureStep (env : WalletEnv) (provider : WalletProvider)
    (info : WalletInfo) (message : String) : Except String String :=
  if info.type = "SOL" then
    signSolanaMessage env message provider
  else
    signEthereumMessage env message info.address provider

/-- The catch block of `login`: record the message, stop loading. -/
def loginCatch (w : World) (msg : String) : World :=
  { w with store := { w.store with error := some msg, isLoading := false } }

/-- `login` from `stores/authStore.ts`: require a selected provider, set
loading, then nonce-fetch → sign → login-submit in sequence; on success
persist the returned identity and mark authenticated; any step's failure is
caught, recorded, and rethrown. -/
def login (w : World) (env : LoginEnv) (info : WalletInfo) :
    World × Except String Unit :=
  match w.store.walletProvider with
  | none => (w, .error "Wallet not connected")
  | some provider =>
    let w1 := { w with store := { w.store with isLoading := true, error := none } }
    match apiRequest w1 env.nonceOutcome with
    | (w2, .error e) => (loginCatch w2 e, .error e)
    | (w2, .ok nonceResp) =>
      match signatureStep env.wallets provider info nonceResp.message with
      | .error e => (loginCatch w2 e, .error e)
      | .ok _signature =>
        match apiRequest w2 env.loginOutcome with
        | (w3, .error e) => (loginCatch w3 e, .error e)
        | (w3, .ok resp) =>
          let w4 := { w3 with storage :=
            ⟨some resp.api_key, some resp.user.wallet_address,
              some resp.user.wallet_type⟩ }
          ({ w4 with store := { w4.store with
              apiKey := some resp.api_key
              walletAddress := some resp.user.wallet_address
              walletType := some resp.user.wallet_type
              isAuthenticated := true
              isLoading := false
              error := none } }, .ok ())

/-- One invocation of a store operation, with the environment it consumes. -/
inductive StoreOp where
  | initOp
  | connectOp (env : WalletEnv) (provider : WalletProvider)
  | loginOp (env : LoginEnv) (info : WalletInfo)
  | logoutOp
  | clearErrorOp

/-- Apply a store operation to the world (discarding the returned value). -/
def applyOp (w : World) : StoreOp → World
  | .initOp => initAuth w
  | .connectOp env p => (connectWallet w env p).1
  | .loginOp env i => (login w env i).1
  | .logoutOp => logout w
  | .clearErrorOp => clearError w

/-- The record returned by `getCodeTimeRemaining`
(`hooks/useRegistrationCodes.ts`). -/
structure TimeRemaining where
  isExpired : Bool
  totalSeconds : Nat
  minutes : Nat
  seconds : Nat
  formatted : String
deriving DecidableEq, Repr

/-- `getCodeTimeRemaining` from `hooks/useRegistrationCodes.ts`, with the
call's two time inputs made explicit in milliseconds: `expiresAtMs` is the
parsed `expires_at` and `nowMs` is `new Date()` at the call. -/
def getCodeTimeRemaining (expiresAtMs nowMs : Int) : TimeRemaining :=
  let diffMs := expiresAtMs - nowMs
  if diffMs ≤ 0 then
    ⟨true, 0, 0, 0, "Expired"⟩
  else
    let totalSeconds := diffMs.toNat / 1000
    let minutes := totalSeconds / 60
    let seconds := totalSeconds % 60
    let formatted :=
      if minutes > 0 then
        toString minutes ++ "m " ++ toString seconds ++ "s"
      else
        toString seconds ++ "s"
    ⟨false, totalSeconds, minutes, seconds, formatted⟩

/-- `NodeStatus` union type from `types/index.ts`. -/
inductive NodeStatus where
  | online
  | offline
  | suspended
deriving DecidableEq, Repr

/-- Session status filter values (`'active' | 'completed' | 'error'`). -/
inductive SessionStatus where
  | active
  | completed
  | error
deriving DecidableEq, Repr

/-- One element of a react-query key array as built by `nodeKeys` /
`codeKeys`: a plain string, or one of the parameter objects the key
factories append. -/
inductive KeyPart where
  | str (s : String)
  | statusFilter (status : Option NodeStatus)
  | daysFilter (days : Option Nat)
  | sessionFilters (status : Option SessionStatus) (limit : Option Nat)
  | includeExpiredFlag (b : Bool)
deriving DecidableEq, Repr

/-- `nodeKeys.all` from `hooks/useNodes.ts`. -/
def nodeKeys_all : List KeyPart := [.str "nodes"]

/-- `nodeKeys.lists()`. -/
def nodeKeys_lists : List KeyPart := nodeKeys_all ++ [.str "list"]

/-- `nodeKeys.list(status)`. -/
def nodeKeys_list (status : Option NodeStatus) : List KeyPart :=
  nodeKeys_lists ++ [.statusFilter status]

/-- `nodeKeys.details()`. -/
def nodeKeys_details : List KeyPart := nodeKeys_all ++ [.str "detail"]

/-- `nodeKeys.detail(id)`. -/
def nodeKeys_detail (id : String) : List KeyPart :=
  nodeKeys_details ++ [.str id]

/-- `nodeKeys.statuses()`. -/
def nodeKeys_statuses : List KeyPart := nodeKeys_all ++ [.str "status"]

/-- `nodeKeys.status(id)`. -/
def nodeKeys_statusKey (id : String) : List KeyPart :=
  nodeKeys_statuses ++ [.str id]

/-- `nodeKeys.stats()`. -/
def nodeKeys_stats : List KeyPart := nodeKeys_all ++ [.str "stats"]

/-- `nodeKeys.stat(id, days)`. -/
def nodeKeys_stat (id : String) (days : Option Nat) : List KeyPart :=
  nodeKeys_stats ++ [.str id, .daysFilter days]

/-- `nodeKeys.sessions()`. -/
def nodeKeys_sessions : List KeyPart := nodeKeys_all ++ [.str "sessions"]

/-- `nodeKeys.session(id, filters)`. -/
def nodeKeys_session (id : String) (status : Option SessionStatus)
    (limit : Option Nat) : List KeyPart :=
  nodeKeys_sessions ++ [.str id, .sessionFilters status limit]

/-- `codeKeys.all` from `hooks/useRegistrationCodes.ts`. -/
def codeKeys_all : List KeyPart := [.str "codes"]

/-- `codeKeys.lists()`. -/
def codeKeys_lists : List KeyPart := codeKeys_all ++ [.str "list"]

/-- `codeKeys.list(includeExpired)`. -/
def codeKeys_list (includeExpired : Bool) : List KeyPart :=
  codeKeys_lists ++ [.includeExpiredFlag includeExpired]

/-- react-query's `invalidateQueries({queryKey})` matching: a query is
invalidated when the given key is a leading segment of its key. -/
def keyMatches (pre key : List KeyPart) : Bool :=
  pre.isPrefixOf key

/-- Keys invalidated by `useDeleteNode`'s `onSuccess`
(`hooks/useNodes.ts`): `nodeKeys.lists()`. -/
def deleteNodeInvalidates (key : List KeyPart) : Bool :=
  keyMatches nodeKeys_lists key

/-- Keys invalidated by `useUpdateNode`'s `onSuccess`
(`hooks/useNodes.ts`): `nodeKeys.lists()` and `nodeKeys.detail(nodeId)`. -/
def updateNodeInvalidates (nodeId : String) (key : List KeyPart) : Bool :=
  keyMatches nodeKeys_lists key || keyMatches (nodeKeys_detail nodeId) key

/-- Keys invalidated by `useGenerateCode`'s `onSuccess`
(`hooks/useRegistrationCodes.ts`): `codeKeys.lists()`. -/
def generateCodeInvalidates (key : List KeyPart) : Bool :=
  keyMatches codeKeys_lists key

/-- Keys invalidated by `useRevokeCode`'s `onSuccess`
(`hooks/useRegistrationCodes.ts`): `codeKeys.lists()`. -/
def revokeCodeInvalidates (key : List KeyPart) : Bool :=
  keyMatches codeKeys_lists key

/-- `Node` from `types/index.ts`; JavaScript numbers modelled as `ℚ`. -/
structure Node where
  id : String
  name : String
  status : NodeStatus
  public_ip : String
  port : ℚ
  version : String
  last_heartbeat : String
  current_sessions : ℚ
  total_sessions : ℚ
  online_duration : ℚ
  total_traffic_gb : ℚ
  is_verified : Bool
  created_at : String
deriving DecidableEq

/-- One cached node-list query: its key, its data snapshot, and whether the
snapshot is still fresh (not invalidated). -/
structure CacheEntry where
  key : List KeyPart
  data : List Node
  fresh : Bool
deriving DecidableEq

/-- Client-visible system state for the node-list cache: the backend's node
store and the query cache. -/
structure ClientState where
  server : List Node
  cache : List CacheEntry
deriving DecidableEq

/-- Mark stale every cache entry whose key matches the predicate. -/
def invalidateWhere (p : List KeyPart → Bool) (cache : List CacheEntry) :
    List CacheEntry :=
  cache.map fun e => if p e.key then { e with fresh := false } else e

/-- Look up the cache entry stored under a key. -/
def lookupEntry (cache : List CacheEntry) (key : List KeyPart) :
    Option CacheEntry :=
  cache.find? fun e => e.key == key

/-- Modelled from the spec: the remote backend's `GET /nodes/` handler,
which is not part of this repository — it returns the stored nodes,
filtered by `status` when the query parameter is present. -/
def serverGetNodes (nodes : List Node) (status : Option NodeStatus) :
    List Node :=
  match status with
  | none => nodes
  | some st => nodes.filter fun n => n.status == st

/-- Modelled from the spec: the remote backend's `DELETE /nodes/{id}/`
handler, which is not part of this repository — it removes the node with
the given id from the store. -/
def serverDeleteNode (nodes : List Node) (nodeId : String) : List Node :=
  nodes.filter fun n => !(n.id == nodeId)

/-- Store a fetched node list in the cache under its key, fresh. -/
def storeEntry (cache : List CacheEntry) (key : List KeyPart)
    (data : List Node) : List CacheEntry :=
  ⟨key, data, true⟩ :: (cache.filter fun e => !(e.key == key))

/-- A `useNodes` read (`hooks/useNodes.ts`): serve the cached snapshot when
it is fresh, otherwise fetch from the server and cache the result. -/
def readNodeList (s : ClientState) (status : Option NodeStatus) :
    List Node × ClientState :=
  let key := nodeKeys_list status
  match lookupEntry s.cache key with
  | some e =>
    if e.fresh then (e.data, s)
    else
      let data := serverGetNodes s.server status
      (data, { s with cache := storeEntry s.cache key data })
  | none =>
    let data := serverGetNodes s.server status
    (data, { s with cache := storeEntry s.cache key data })

/-- The success path of a `useDeleteNode` mutation (`hooks/useNodes.ts`):
the server performs the delete, then `onSuccess` invalidates the node-list
queries. -/
def deleteNodeMutation (s : ClientState) (nodeId : String) : ClientState :=
  { server := serverDeleteNode s.server nodeId
    cache := invalidateWhere deleteNodeInvalidates s.cache }

/-- The aggregate record computed by `useAggregatedStats`
(`hooks/useNodes.ts`). -/
structure AggregatedStats where
  totalNodes : Nat
  onlineNodes : Nat
  totalSessions : ℚ
  activeSessions : ℚ
  totalTrafficGB : ℚ
  avgUptime : ℚ
deriving DecidableEq

/-- `useAggregatedStats` from `hooks/useNodes.ts`, as a function of the
node list it aggregates. -/
def useAggregatedStats (nodes : List Node) : AggregatedStats :=
  { totalNodes := nodes.length
    onlineNodes := (nodes.filter fun n => n.status == .online).length
    totalSessions := nodes.foldl (fun sum n => sum + n.total_sessions) 0
    activeSessions := nodes.foldl (fun sum n => sum + n.current_sessions) 0
    totalTrafficGB := nodes.foldl (fun sum n => sum + n.total_traffic_gb) 0
    avgUptime :=
      if nodes.length > 0 then
        nodes.foldl (fun sum n => sum + n.online_duration) 0 / (nodes.length : ℚ)
      else 0 }

/-! ## The auth-flag invariant -/

/-- The spec's invariant: `isAuthenticated` is true iff all three of
apiKey / walletAddress / walletType are non-null. -/
def authInvariant (s : AuthState) : Prop :=
  s.isAuthenticated =
    (s.apiKey.isSome && s.walletAddress.isSome && s.walletType.isSome)

theorem jsTruthy_isSome {o : Option String} (h : jsTruthy o = true) :
    o.isSome = true := by
  cases o with
  | none => simp [jsTruthy] at h
  | some s => rfl

theorem authInvariant_logout (w : World) : authInvariant (logout w).store :=
  rfl

theorem authInvariant_runLogoutListeners (n : Nat) (w : World)
    (h : authInvariant w.store) :
    authInvariant (runLogoutListeners n w).store := by
  induction n generalizing w with
  | zero => exact h
  | succ n ih => exact ih _ (authInvariant_logout w)

theorem authInvariant_dispatchAuthLogout (w : World)
    (h : authInvariant w.store) :
    authInvariant (dispatchAuthLogout w).store :=
  authInvariant_runLogoutListeners w.listeners w h

theorem authInvariant_apiRequest {α : Type} (w : World) (o : ApiOutcome α)
    (h : authInvariant w.store) :
    authInvariant ((apiRequest w o).1).store := by
  cases o with
  | ok v => exact h
  | unauthorized => exact authInvariant_dispatchAuthLogout _ h
  | failure m => exact h

theorem authInvariant_initAuth (w : World) (h : authInvariant w.store) :
    authInvariant (initAuth w).store := by
  simp only [initAuth]
  split
  · rename_i hc
    simp only [Bool.and_eq_true] at hc
    obtain ⟨⟨h1, h2⟩, h3⟩ := hc
    show true = _
    rw [jsTruthy_isSome h1, jsTruthy_isSome h2, jsTruthy_isSome h3]
    rfl
  · exact h

/-- C1: for the global auth store, `isAuthenticated = true` iff all three of
apiKey, walletAddress and walletType are non-null; the invariant holds in
the initial state and is preserved by every store operation (initialize,
connectWallet on success and failure, login on success and failure, logout,
clearError). -/
theorem c1_auth_flag_iff_identity :
    authInvariant initialWorld.store ∧
      ∀ (w : World) (op : StoreOp),
        authInvariant w.store → authInvariant (applyOp w op).store := by
  constructor
  · rfl
  · intro w op h
    cases op with
    | initOp => exact authInvariant_initAuth w h
    | connectOp env p =>
      show authInvariant (connectWallet w env p).1.store
      cases p <;> (simp only [connectWallet]; split <;> exact h)
    | loginOp env info =>
      show authInvariant (login w env info).1.store
      unfold login
      cases hprov : w.store.walletProvider with
      | none => exact h
      | some provider =>
        have h1 : authInvariant
            ({ w with store :=
              { w.store with isLoading := true, error := none } } : World).store := h
        rcases hn : apiRequest
            { w with store := { w.store with isLoading := true, error := none } }
            env.nonceOutcome with ⟨w2, r2⟩
        have h2 : authInvariant w2.store := by
          have hx := authInvariant_apiRequest
            { w with store := { w.store with isLoading := true, error := none } }
            env.nonceOutcome h1
          rw [hn] at hx
          exact hx
        cases r2 with
        | error e => simp only [hn]; exact h2
        | ok nonceResp =>
          simp only [hn]
          cases hs : signatureStep env.wallets provider info nonceResp.message with
          | error e => simp only [hs]; exact h2
          | ok sig =>
            simp only [hs]
            rcases hl : apiRequest w2 env.loginOutcome with ⟨w3, r3⟩
            have h3 : authInvariant w3.store := by
              have hx := authInvariant_apiRequest w2 env.loginOutcome h2
              rw [hl] at hx
              exact hx
            cases r3 with
            | error e => simp only [hl]; exact h3
            | ok resp => simp only [hl]; rfl
    | logoutOp => exact authInvariant_logout w
    | clearErrorOp => exact h

/-- Witness for C1 at a concrete world and operation. -/
theorem c1_auth_flag_iff_identity_witness :
    authInvariant initialWorld.store ∧
      authInvariant (applyOp initialWorld StoreOp.logoutOp).store :=
  ⟨c1_auth_flag_iff_identity.1,
    c1_auth_flag_iff_identity.2 initialWorld StoreOp.logoutOp rfl⟩

/-! ## Login / logout postconditions and the 401 side effect -/

/-- C2: after every successful `login`, the session is authenticated and
all three identity keys are persisted non-null; after every `logout`, none
of the three keys is present and the session is unauthenticated. -/
theorem c2_login_logout_persistence :
    ∀ (w : World) (env : LoginEnv) (info : WalletInfo),
      ((login w env info).2 = Except.ok () →
        (login w env info).1.store.isAuthenticated = true ∧
        (login w env info).1.storage.apiKey.isSome = true ∧
        (login w env info).1.storage.walletAddress.isSome = true ∧
        (login w env info).1.storage.walletType.isSome = true) ∧
      ((logout w).storage.apiKey = none ∧
        (logout w).storage.walletAddress = none ∧
        (logout w).storage.walletType = none ∧
        (logout w).store.isAuthenticated = false) := by
  intro w env info
  refine ⟨?_, rfl, rfl, rfl, rfl⟩
  intro hok
  unfold login at hok ⊢
  cases hprov : w.store.walletProvider with
  | none => rw [hprov] at hok; simp at hok
  | some provider =>
    rw [hprov] at hok
    rcases hn : apiRequest
        { w with store := { w.store with isLoading := true, error := none } }
        env.nonceOutcome with ⟨w2, r2⟩
    cases r2 with
    | error e => simp [hn] at hok
    | ok nonceResp =>
      simp only [hn] at hok
      cases hs : signatureStep env.wallets provider info nonceResp.message with
      | error e => simp [hs] at hok
      | ok sig =>
        simp only [hs] at hok
        rcases hl : apiRequest w2 env.loginOutcome with ⟨w3, r3⟩
        cases r3 with
        | error e => simp [hl] at hok
        | ok resp =>
          refine ⟨?_, ?_, ?_, ?_⟩ <;> simp [hn, hs, hl]

/-- Witness for C2: a concrete fully-successful login. -/
theorem c2_login_logout_persistence_witness :
    (login
        (applyOp initialWorld
          (StoreOp.connectOp
            ⟨some ⟨true, Except.ok "addr1", Except.ok [1, 2]⟩, none, none, none⟩
            WalletProvider.phantom))
        ⟨ApiOutcome.ok ⟨"n1", "msg1", false⟩,
          ⟨some ⟨true, Except.ok "addr1", Except.ok [1, 2]⟩, none, none, none⟩,
          ApiOutcome.ok ⟨"k1", ⟨"u1", "addr1", "SOL"⟩, "ok"⟩⟩
        ⟨"addr1", "SOL", WalletProvider.phantom⟩).2 = Except.ok () ∧
    (login
        (applyOp initialWorld
          (StoreOp.connectOp
            ⟨some ⟨true, Except.ok "addr1", Except.ok [1, 2]⟩, none, none, none⟩
            WalletProvider.phantom))
        ⟨ApiOutcome.ok ⟨"n1", "msg1", false⟩,
          ⟨some ⟨true, Except.ok "addr1", Except.ok [1, 2]⟩, none, none, none⟩,
          ApiOutcome.ok ⟨"k1", ⟨"u1", "addr1", "SOL"⟩, "ok"⟩⟩
        ⟨"addr1", "SOL", WalletProvider.phantom⟩).1.store.isAuthenticated = true := by
  have hok : (login
      (applyOp initialWorld
        (StoreOp.connectOp
          ⟨some ⟨true, Except.ok "addr1", Except.ok [1, 2]⟩, none, none, none⟩
          WalletProvider.phantom))
      ⟨ApiOutcome.ok ⟨"n1", "msg1", false⟩,
        ⟨some ⟨true, Except.ok "addr1", Except.ok [1, 2]⟩, none, none, none⟩,
        ApiOutcome.ok ⟨"k1", ⟨"u1", "addr1", "SOL"⟩, "ok"⟩⟩
      ⟨"addr1", "SOL", WalletProvider.phantom⟩).2 = Except.ok () := rfl
  exact ⟨hok, ((c2_login_logout_persistence _ _ _).1 hok).1⟩

theorem runLogoutListeners_storage (n : Nat) (w : World)
    (h : w.storage = ⟨none, none, none⟩) :
    (runLogoutListeners n w).storage = ⟨none, none, none⟩ := by
  induction n generalizing w with
  | zero => exact h
  | succ n ih => exact ih _ rfl

theorem runLogoutListeners_logoutEvents (n : Nat) (w : World) :
    (runLogoutListeners n w).logoutEvents = w.logoutEvents := by
  induction n generalizing w with
  | zero => rfl
  | succ n ih => exact ih (logout w)

/-- C3: on an HTTP 401 the API client removes all three persisted auth
keys, dispatches one global `auth:logout` event, and the call still rejects
(with the session-expired message) rather than resolving. -/
theorem c3_unauthorized_clears_and_rejects :
    ∀ (α : Type) (w : World),
      (apiRequest w (ApiOutcome.unauthorized : ApiOutcome α)).1.storage.apiKey
          = none ∧
      (apiRequest w (ApiOutcome.unauthorized : ApiOutcome α)).1.storage.walletAddress
          = none ∧
      (apiRequest w (ApiOutcome.unauthorized : ApiOutcome α)).1.storage.walletType
          = none ∧
      (apiRequest w (ApiOutcome.unauthorized : ApiOutcome α)).1.logoutEvents
          = w.logoutEvents + 1 ∧
      (apiRequest w (ApiOutcome.unauthorized : ApiOutcome α)).2
          = Except.error SESSION_EXPIRED := by
  intro α w
  have hstorage :
      (dispatchAuthLogout { w with storage := ⟨none, none, none⟩ }).storage
        = ⟨none, none, none⟩ :=
    runLogoutListeners_storage _ _ rfl
  refine ⟨?_, ?_, ?_, ?_, rfl⟩
  · rw [show (apiRequest w (ApiOutcome.unauthorized : ApiOutcome α)).1
        = dispatchAuthLogout { w with storage := ⟨none, none, none⟩ } from rfl,
      hstorage]
  · rw [show (apiRequest w (ApiOutcome.unauthorized : ApiOutcome α)).1
        = dispatchAuthLogout { w with storage := ⟨none, none, none⟩ } from rfl,
      hstorage]
  · rw [show (apiRequest w (ApiOutcome.unauthorized : ApiOutcome α)).1
        = dispatchAuthLogout { w with storage := ⟨none, none, none⟩ } from rfl,
      hstorage]
  · show (dispatchAuthLogout { w with storage := ⟨none, none, none⟩ }).logoutEvents
      = w.logoutEvents + 1
    show (runLogoutListeners w.listeners
        { w with storage := ⟨none, none, none⟩ }).logoutEvents + 1
      = w.logoutEvents + 1
    rw [runLogoutListeners_logoutEvents]

/-! ## The initialize guard (C8) -/

theorem initAuth_storage (w : World) : (initAuth w).storage = w.storage := by
  simp only [initAuth]
  split <;> rfl

theorem initAuth_listeners (w : World) :
    (initAuth w).listeners = w.listeners + 1 := by
  simp only [initAuth]
  split <;> rfl

/-- Counterexample to C8: a second `initialize` call is not a no-op — it
registers one more `auth:logout` listener (there is no one-shot guard
flag), so the world after two calls differs from the world after one. -/
theorem c8_counterexample_second_call_has_effect :
    initAuth (initAuth initialWorld) ≠ initAuth initialWorld ∧
    (initAuth (initAuth initialWorld)).listeners = 2 ∧
    (initAuth initialWorld).listeners = 1 := by
  refine ⟨?_, rfl, rfl⟩
  decide

/-- C8 (amended): `initialize` carries no one-shot guard flag; every call
re-runs the body, registering one more `auth:logout` listener.  It is
nevertheless idempotent on the auth state and the persisted storage: a
second call leaves both exactly as after the first. -/
theorem c8_initialize_idempotent_no_guard :
    ∀ w : World,
      (initAuth (initAuth w)).store = (initAuth w).store ∧
      (initAuth (initAuth w)).storage = (initAuth w).storage ∧
      (initAuth w).listeners = w.listeners + 1 := by
  intro w
  refine ⟨?_, by rw [initAuth_storage, initAuth_storage], initAuth_listeners w⟩
  cases hc : (jsTruthy w.storage.apiKey && jsTruthy w.storage.walletAddress
      && jsTruthy w.storage.walletType) with
  | false =>
    have e1 : initAuth w = { w with listeners := w.listeners + 1 } := by
      simp [initAuth, hc]
    rw [e1]
    have e2 : initAuth ({ w with listeners := w.listeners + 1 } : World)
        = { w with listeners := w.listeners + 1 + 1 } := by
      simp [initAuth, hc]
    rw [e2]
  | true =>
    have e1 : initAuth w =
        { w with
          store := { w.store with
            apiKey := w.storage.apiKey
            walletAddress := w.storage.walletAddress
            walletType := w.storage.walletType
            isAuthenticated := true }
          listeners := w.listeners + 1 } := by
      simp [initAuth, hc]
    rw [e1]
    have e2 : initAuth ({ w with
        store := { w.store with
          apiKey := w.storage.apiKey
          walletAddress := w.storage.walletAddress
          walletType := w.storage.walletType
          isAuthenticated := true }
        listeners := w.listeners + 1 } : World) =
        { w with
          store := { w.store with
            apiKey := w.storage.apiKey
            walletAddress := w.storage.walletAddress
            walletType := w.storage.walletType
            isAuthenticated := true }
          listeners := w.listeners + 1 + 1 } := by
      simp [initAuth, hc]
    rw [e2]

/-! ## connectWallet with an absent wallet (C5) -/

/-- The injected object that `connectWallet(P)` consults is absent. -/
def providerAbsent (env : WalletEnv) : WalletProvider → Prop
  | .phantom => env.solana = none
  | .metamask => env.ethereum = none
  | .okx => env.okxSolana = none ∧ env.okxEthereum = none

/-- A browser with no injected wallet objects at all. -/
def absentEnv : WalletEnv := ⟨none, none, none, none⟩

theorem connectPhantom_absent (env : WalletEnv) (h : env.solana = none) :
    connectPhantom env
      = Except.error (WALLET_NOT_FOUND ++ " Please install Phantom.") := by
  unfold connectPhantom
  rw [h]

theorem connectMetaMask_absent (env : WalletEnv) (h : env.ethereum = none) :
    connectMetaMask env
      = Except.error (WALLET_NOT_FOUND ++ " Please install MetaMask.") := by
  unfold connectMetaMask
  rw [h]

theorem connectOKX_absent (env : WalletEnv) (h1 : env.okxSolana = none)
    (h2 : env.okxEthereum = none) :
    connectOKX env
      = Except.error (WALLET_NOT_FOUND ++ " Please install OKX Wallet.") := by
  unfold connectOKX connectOKX.connectOKXEthereum
  rw [h1, h2]

/-- Counterexample to C5 as stated: with no wallet injected,
`connectWallet('phantom')` does reject with the wallet-not-found error, but
it does not leave the auth state container unchanged — the `error` field is
written (and `isLoading` is toggled), so "no field of the auth state
container changes" fails. -/
theorem c5_counterexample_error_field_mutated :
    (connectWallet initialWorld absentEnv WalletProvider.phantom).2
      = Except.error (WALLET_NOT_FOUND ++ " Please install Phantom.") ∧
    (connectWallet initialWorld absentEnv WalletProvider.phantom).1.store
      ≠ initialWorld.store ∧
    (connectWallet initialWorld absentEnv WalletProvider.phantom).1.store.error
      = some (WALLET_NOT_FOUND ++ " Please install Phantom.") := by
  refine ⟨rfl, ?_, rfl⟩
  decide

/-- C5 (amended): for every provider in {phantom, metamask, okx}, if the
corresponding injected wallet object is absent then `connectWallet` rejects
with the wallet-not-found error and leaves the identity fields of the auth
state (apiKey, walletAddress, walletType, walletProvider, isAuthenticated)
and the persisted storage unchanged; only the transient `isLoading` and
`error` fields are written. -/
theorem c5_wallet_absent_rejects_identity_frame :
    ∀ (w : World) (env : WalletEnv) (p : WalletProvider),
      providerAbsent env p →
      (∃ rest, (connectWallet w env p).2
        = Except.error (WALLET_NOT_FOUND ++ rest)) ∧
      (connectWallet w env p).1.store.apiKey = w.store.apiKey ∧
      (connectWallet w env p).1.store.walletAddress = w.store.walletAddress ∧
      (connectWallet w env p).1.store.walletType = w.store.walletType ∧
      (connectWallet w env p).1.store.walletProvider = w.store.walletProvider ∧
      (connectWallet w env p).1.store.isAuthenticated = w.store.isAuthenticated ∧
      (connectWallet w env p).1.storage = w.storage := by
  intro w env p hp
  cases p with
  | phantom =>
    have hA := connectPhantom_absent env hp
    refine ⟨⟨" Please install Phantom.", ?_⟩,
      ?_, ?_, ?_, ?_, ?_, ?_⟩ <;> simp [connectWallet, hA]
  | metamask =>
    have hA := connectMetaMask_absent env hp
    refine ⟨⟨" Please install MetaMask.", ?_⟩,
      ?_, ?_, ?_, ?_, ?_, ?_⟩ <;> simp [connectWallet, hA]
  | okx =>
    have hA := connectOKX_absent env hp.1 hp.2
    refine ⟨⟨" Please install OKX Wallet.", ?_⟩,
      ?_, ?_, ?_, ?_, ?_, ?_⟩ <;> simp [connectWallet, hA]

/-- Witness for the amended C5 at a concrete world and provider. -/
theorem c5_wallet_absent_rejects_identity_frame_witness :
    (∃ rest, (connectWallet initialWorld absentEnv WalletProvider.okx).2
        = Except.error (WALLET_NOT_FOUND ++ rest)) ∧
    (connectWallet initialWorld absentEnv WalletProvider.okx).1.store.isAuthenticated
      = initialWorld.store.isAuthenticated := by
  have h := c5_wallet_absent_rejects_identity_frame initialWorld absentEnv
    WalletProvider.okx ⟨rfl, rfl⟩
  exact ⟨h.1, h.2.2.2.2.2.1⟩

/-! ## Login sequencing and atomicity on error (C4) -/

/-- The four fields whose joint null/false state means "unauthenticated". -/
def unauthState (s : AuthState) : Prop :=
  s.apiKey = none ∧ s.walletAddress = none ∧ s.walletType = none ∧
    s.isAuthenticated = false

theorem unauthState_logout (w : World) : unauthState (logout w).store :=
  ⟨rfl, rfl, rfl, rfl⟩

theorem unauthState_runLogoutListeners (n : Nat) (w : World)
    (h : unauthState w.store) :
    unauthState (runLogoutListeners n w).store := by
  induction n generalizing w with
  | zero => exact h
  | succ n ih => exact ih _ (unauthState_logout w)

theorem unauthState_apiRequest {α : Type} (w : World) (o : ApiOutcome α)
    (h : unauthState w.store) :
    unauthState ((apiRequest w o).1).store := by
  cases o with
  | ok v => exact h
  | unauthorized =>
    exact unauthState_runLogoutListeners _ _ h
  | failure m => exact h

theorem apiRequest_storage_frame {α : Type} (w : World) (o : ApiOutcome α) :
    ((apiRequest w o).1).storage = w.storage ∨
      ((apiRequest w o).1).storage = ⟨none, none, none⟩ := by
  cases o with
  | ok v => exact Or.inl rfl
  | unauthorized =>
    exact Or.inr (runLogoutListeners_storage _ _ rfl)
  | failure m => exact Or.inl rfl

theorem apiRequest_ok_inv {α : Type} (w w' : World) (o : ApiOutcome α)
    (v : α) (h : apiRequest w o = (w', Except.ok v)) : o = ApiOutcome.ok v := by
  cases o with
  | ok x =>
    have hx := congrArg Prod.snd h
    simp only [apiRequest] at hx
    rw [show x = v from by simpa using hx]
  | unauthorized => simp [apiRequest] at h
  | failure m => simp [apiRequest] at h

/-- C4: the login flow is nonce-fetch → sign → login-submit, strictly in
sequence, and atomic on error: (a) starting unauthenticated, any step's
failure leaves the four authentication fields unchanged and writes no
persisted key (each key is either untouched or removed by the 401 path);
(b) if the nonce fetch fails, nothing later in the environment (wallets,
login outcome) is consulted; (c) if the signing step fails, the login
submit outcome is never consulted; (d) login resolves successfully only
when all three steps succeeded — so any step's failure makes it reject. -/
theorem c4_login_atomic_and_sequential :
    (∀ (w : World) (env : LoginEnv) (info : WalletInfo) (e : String),
      unauthState w.store →
      (login w env info).2 = Except.error e →
      unauthState (login w env info).1.store ∧
      ((login w env info).1.storage.apiKey = w.storage.apiKey ∨
        (login w env info).1.storage.apiKey = none) ∧
      ((login w env info).1.storage.walletAddress = w.storage.walletAddress ∨
        (login w env info).1.storage.walletAddress = none) ∧
      ((login w env info).1.storage.walletType = w.storage.walletType ∨
        (login w env info).1.storage.walletType = none)) ∧
    (∀ (w : World) (info : WalletInfo) (n : ApiOutcome NonceResponse)
        (wal₁ wal₂ : WalletEnv) (l₁ l₂ : ApiOutcome LoginResponse),
      n.isFailure = true →
      login w ⟨n, wal₁, l₁⟩ info = login w ⟨n, wal₂, l₂⟩ info) ∧
    (∀ (w : World) (info : WalletInfo) (p : WalletProvider)
        (resp : NonceResponse) (e : String) (wal : WalletEnv)
        (l₁ l₂ : ApiOutcome LoginResponse),
      w.store.walletProvider = some p →
      signatureStep wal p info resp.message = Except.error e →
      login w ⟨ApiOutcome.ok resp, wal, l₁⟩ info
        = login w ⟨ApiOutcome.ok resp, wal, l₂⟩ info) ∧
    (∀ (w : World) (env : LoginEnv) (info : WalletInfo),
      (login w env info).2 = Except.ok () →
      ∃ (p : WalletProvider) (resp : NonceResponse) (sig : String)
        (respL : LoginResponse),
        w.store.walletProvider = some p ∧
        env.nonceOutcome = ApiOutcome.ok resp ∧
        signatureStep env.wallets p info resp.message = Except.ok sig ∧
        env.loginOutcome = ApiOutcome.ok respL) := by
  refine ⟨?_, ?_, ?_, ?_⟩
  · intro w env info e hu herr
    unfold login at herr ⊢
    cases hprov : w.store.walletProvider with
    | none => exact ⟨hu, Or.inl rfl, Or.inl rfl, Or.inl rfl⟩
    | some provider =>
      rw [hprov] at herr
      have hu1 : unauthState
          ({ w with store :=
            { w.store with isLoading := true, error := none } } : World).store := hu
      rcases hn : apiRequest
          { w with store := { w.store with isLoading := true, error := none } }
          env.nonceOutcome with ⟨w2, r2⟩
      have hu2 : unauthState w2.store := by
        have hx := unauthState_apiRequest
          { w with store := { w.store with isLoading := true, error := none } }
          env.nonceOutcome hu1
        rw [hn] at hx
        exact hx
      have hs2 : w2.storage = w.storage ∨ w2.storage = ⟨none, none, none⟩ := by
        have hx := apiRequest_storage_frame
          { w with store := { w.store with isLoading := true, error := none } }
          env.nonceOutcome
        rw [hn] at hx
        exact hx
      cases r2 with
      | error e2 =>
        simp only [hn]
        rcases hs2 with h | h <;>
          exact ⟨hu2, by rw [show (loginCatch w2 e2).storage = w2.storage from rfl, h]
            <;> simp, by rw [show (loginCatch w2 e2).storage = w2.storage from rfl, h]
            <;> simp, by rw [show (loginCatch w2 e2).storage = w2.storage from rfl, h]
            <;> simp⟩
      | ok nonceResp =>
        simp only [hn] at herr ⊢
        cases hsig : signatureStep env.wallets provider info nonceResp.message with
        | error e3 =>
          simp only [hsig]
          rcases hs2 with h | h <;>
            exact ⟨hu2, by rw [show (loginCatch w2 e3).storage = w2.storage from rfl, h]
              <;> simp, by rw [show (loginCatch w2 e3).storage = w2.storage from rfl, h]
              <;> simp, by rw [show (loginCatch w2 e3).storage = w2.storage from rfl, h]
              <;> simp⟩
        | ok sig =>
          simp only [hsig] at herr ⊢
          rcases hl : apiRequest w2 env.loginOutcome with ⟨w3, r3⟩
          have hu3 : unauthState w3.store := by
            have hx := unauthState_apiRequest w2 env.loginOutcome hu2
            rw [hl] at hx
            exact hx
          have hs3 : w3.storage = w2.storage ∨ w3.storage = ⟨none, none, none⟩ := by
            have hx := apiRequest_storage_frame w2 env.loginOutcome
            rw [hl] at hx
            exact hx
          have hs3' : w3.storage = w.storage ∨ w3.storage = ⟨none, none, none⟩ := by
            rcases hs3 with h3 | h3
            · rcases hs2 with h2 | h2
              · exact Or.inl (h3.trans h2)
              · exact Or.inr (h3.trans h2)
            · exact Or.inr h3
          cases r3 with
          | error e4 =>
            simp only [hl]
            rcases hs3' with h | h <;>
              exact ⟨hu3, by rw [show (loginCatch w3 e4).storage = w3.storage from rfl, h]
                <;> simp, by rw [show (loginCatch w3 e4).storage = w3.storage from rfl, h]
                <;> simp, by rw [show (loginCatch w3 e4).storage = w3.storage from rfl, h]
                <;> simp⟩
          | ok resp => simp [hl] at herr
  · intro w info n wal₁ wal₂ l₁ l₂ hfail
    unfold login
    cases hprov : w.store.walletProvider with
    | none => rfl
    | some provider =>
      cases n with
      | ok v => simp [ApiOutcome.isFailure] at hfail
      | unauthorized => rfl
      | failure m => rfl
  · intro w info p resp e wal l₁ l₂ hprov hsig
    unfold login
    rw [hprov]
    simp [apiRequest, hsig]
  · intro w env info hok
    unfold login at hok
    cases hprov : w.store.walletProvider with
    | none => rw [hprov] at hok; simp at hok
    | some provider =>
      rw [hprov] at hok
      rcases hn : apiRequest
          { w with store := { w.store with isLoading := true, error := none } }
          env.nonceOutcome with ⟨w2, r2⟩
      cases r2 with
      | error e => simp [hn] at hok
      | ok nonceResp =>
        simp only [hn] at hok
        cases hs : signatureStep env.wallets provider info nonceResp.message with
        | error e => simp [hs] at hok
        | ok sig =>
          simp only [hs] at hok
          rcases hl : apiRequest w2 env.loginOutcome with ⟨w3, r3⟩
          cases r3 with
          | error e => simp [hl] at hok
          | ok resp =>
            exact ⟨provider, nonceResp, sig, resp, rfl,
              apiRequest_ok_inv _ _ _ _ hn, hs, apiRequest_ok_inv _ _ _ _ hl⟩

/-- Witness for C4 at concrete inputs: a failing nonce fetch from the
initial world, and a failing signature with a connected phantom provider. -/
theorem c4_login_atomic_and_sequential_witness :
    (unauthState initialWorld.store ∧
      (login initialWorld ⟨ApiOutcome.failure "boom", absentEnv,
          ApiOutcome.failure "boom"⟩ ⟨"a", "SOL", WalletProvider.phantom⟩).2
        = Except.error "Wallet not connected" ∧
      unauthState (login initialWorld ⟨ApiOutcome.failure "boom", absentEnv,
          ApiOutcome.failure "boom"⟩ ⟨"a", "SOL", WalletProvider.phantom⟩).1.store) ∧
    ((ApiOutcome.failure "boom" : ApiOutcome NonceResponse).isFailure = true) ∧
    ((applyOp initialWorld
        (StoreOp.connectOp
          ⟨some ⟨true, Except.ok "a", Except.ok []⟩, none, none, none⟩
          WalletProvider.phantom)).store.walletProvider
        = some WalletProvider.phantom ∧
      signatureStep absentEnv WalletProvider.phantom ⟨"a", "SOL", WalletProvider.phantom⟩
          "m" = Except.error SIGNATURE_FAILED ∧
      login (applyOp initialWorld
          (StoreOp.connectOp
            ⟨some ⟨true, Except.ok "a", Except.ok []⟩, none, none, none⟩
            WalletProvider.phantom))
          ⟨ApiOutcome.ok ⟨"n", "m", false⟩, absentEnv, ApiOutcome.failure "x"⟩
          ⟨"a", "SOL", WalletProvider.phantom⟩
        = login (applyOp initialWorld
            (StoreOp.connectOp
              ⟨some ⟨true, Except.ok "a", Except.ok []⟩, none, none, none⟩
              WalletProvider.phantom))
            ⟨ApiOutcome.ok ⟨"n", "m", false⟩, absentEnv, ApiOutcome.failure "y"⟩
            ⟨"a", "SOL", WalletProvider.phantom⟩) ∧
    ((login
        (applyOp initialWorld
          (StoreOp.connectOp
            ⟨some ⟨true, Except.ok "b", Except.ok [3]⟩, none, none, none⟩
            WalletProvider.phantom))
        ⟨ApiOutcome.ok ⟨"n2", "m2", false⟩,
          ⟨some ⟨true, Except.ok "b", Except.ok [3]⟩, none, none, none⟩,
          ApiOutcome.ok ⟨"k2", ⟨"u2", "b", "SOL"⟩, "ok"⟩⟩
        ⟨"b", "SOL", WalletProvider.phantom⟩).2 = Except.ok () ∧
      ∃ (p : WalletProvider) (resp : NonceResponse) (sig : String)
        (respL : LoginResponse),
        (applyOp initialWorld
          (StoreOp.connectOp
            ⟨some ⟨true, Except.ok "b", Except.ok [3]⟩, none, none, none⟩
            WalletProvider.phantom)).store.walletProvider = some p ∧
        (ApiOutcome.ok (⟨"n2", "m2", false⟩ : NonceResponse)) = ApiOutcome.ok resp ∧
        signatureStep
          ⟨some ⟨true, Except.ok "b", Except.ok [3]⟩, none, none, none⟩ p
          ⟨"b", "SOL", WalletProvider.phantom⟩ resp.message = Except.ok sig ∧
        (ApiOutcome.ok (⟨"k2", ⟨"u2", "b", "SOL"⟩, "ok"⟩ : LoginResponse))
          = ApiOutcome.ok respL) := by
  have hu : unauthState initialWorld.store := ⟨rfl, rfl, rfl, rfl⟩
  have herr : (login initialWorld ⟨ApiOutcome.failure "boom", absentEnv,
      ApiOutcome.failure "boom"⟩ ⟨"a", "SOL", WalletProvider.phantom⟩).2
      = Except.error "Wallet not connected" := rfl
  refine ⟨⟨hu, herr, (c4_login_atomic_and_sequential.1 initialWorld
    ⟨ApiOutcome.failure "boom", absentEnv, ApiOutcome.failure "boom"⟩
    ⟨"a", "SOL", WalletProvider.phantom⟩ "Wallet not connected" hu herr).1⟩,
    rfl, ⟨rfl, rfl, ?_⟩, rfl, ?_⟩
  · exact c4_login_atomic_and_sequential.2.2.1
      (applyOp initialWorld
        (StoreOp.connectOp
          ⟨some ⟨true, Except.ok "a", Except.ok []⟩, none, none, none⟩
          WalletProvider.phantom))
      ⟨"a", "SOL", WalletProvider.phantom⟩ WalletProvider.phantom
      ⟨"n", "m", false⟩ SIGNATURE_FAILED absentEnv
      (ApiOutcome.failure "x") (ApiOutcome.failure "y") rfl rfl
  · exact c4_login_atomic_and_sequential.2.2.2
      (applyOp initialWorld
        (StoreOp.connectOp
          ⟨some ⟨true, Except.ok "b", Except.ok [3]⟩, none, none, none⟩
          WalletProvider.phantom))
      ⟨ApiOutcome.ok ⟨"n2", "m2", false⟩,
        ⟨some ⟨true, Except.ok "b", Except.ok [3]⟩, none, none, none⟩,
        ApiOutcome.ok ⟨"k2", ⟨"u2", "b", "SOL"⟩, "ok"⟩⟩
      ⟨"b", "SOL", WalletProvider.phantom⟩ rfl

/-! ## The registration-code countdown (C7, C9) -/

/-- C7: `getCodeTimeRemaining` is a pure function of `expires_at` and the
current time — it depends only on their difference, so a fixed "now" and
the same `expires_at` always give the same result; at or before "now" it
returns the expired record with `totalSeconds = 0`, and strictly after
"now" it reports not expired. -/
theorem c7_countdown_pure_and_boundary :
    ∀ (expiresAtMs nowMs : Int),
      getCodeTimeRemaining expiresAtMs nowMs
        = getCodeTimeRemaining (expiresAtMs - nowMs) 0 ∧
      (expiresAtMs ≤ nowMs →
        getCodeTimeRemaining expiresAtMs nowMs = ⟨true, 0, 0, 0, "Expired"⟩) ∧
      (nowMs < expiresAtMs →
        (getCodeTimeRemaining expiresAtMs nowMs).isExpired = false) := by
  intro e now
  refine ⟨?_, ?_, ?_⟩
  · unfold getCodeTimeRemaining
    rw [Int.sub_zero]
  · intro h
    unfold getCodeTimeRemaining
    rw [if_pos (by omega : e - now ≤ 0)]
  · intro h
    unfold getCodeTimeRemaining
    rw [if_neg (by omega : ¬(e - now ≤ 0))]

/-- Witness for C7: a 15-minute expiry is expired at the boundary and not
expired one second before it. -/
theorem c7_countdown_pure_and_boundary_witness :
    ((900000 : Int) ≤ 900000 ∧
      getCodeTimeRemaining 900000 900000 = ⟨true, 0, 0, 0, "Expired"⟩) ∧
    ((899000 : Int) < 900000 ∧
      (getCodeTimeRemaining 900000 899000).isExpired = false) :=
  ⟨⟨by decide, (c7_countdown_pure_and_boundary 900000 900000).2.1 (by decide)⟩,
    ⟨by decide, (c7_countdown_pure_and_boundary 900000 899000).2.2 (by decide)⟩⟩

/-- Counterexample to C9 as stated: with half a second remaining the result
is not expired, yet `totalSeconds` is `0`, refuting `totalSeconds ≥ 1`. -/
theorem c9_counterexample_subsecond_zero :
    (getCodeTimeRemaining 500 0).isExpired = false ∧
    (getCodeTimeRemaining 500 0).totalSeconds = 0 := by
  exact ⟨by decide, by decide⟩

/-- C9 (amended): every non-expired result satisfies
`totalSeconds = minutes * 60 + seconds` with `seconds < 60` (and
`totalSeconds ≥ 0`; it can be `0` when under one second remains), and
`formatted` is `"<minutes>m <seconds>s"` when `minutes > 0` and
`"<seconds>s"` otherwise. -/
theorem c9_countdown_components :
    ∀ (expiresAtMs nowMs : Int),
      (getCodeTimeRemaining expiresAtMs nowMs).isExpired = false →
      (getCodeTimeRemaining expiresAtMs nowMs).totalSeconds
        = (getCodeTimeRemaining expiresAtMs nowMs).minutes * 60
          + (getCodeTimeRemaining expiresAtMs nowMs).seconds ∧
      (getCodeTimeRemaining expiresAtMs nowMs).seconds < 60 ∧
      (getCodeTimeRemaining expiresAtMs nowMs).formatted
        = (if (getCodeTimeRemaining expiresAtMs nowMs).minutes > 0 then
            toString (getCodeTimeRemaining expiresAtMs nowMs).minutes ++ "m "
              ++ toString (getCodeTimeRemaining expiresAtMs nowMs).seconds ++ "s"
          else
            toString (getCodeTimeRemaining expiresAtMs nowMs).seconds ++ "s") := by
  intro e now h
  unfold getCodeTimeRemaining at h ⊢
  by_cases hd : e - now ≤ 0
  · rw [if_pos hd] at h
    simp at h
  · rw [if_neg hd] at h ⊢
    refine ⟨?_, ?_, rfl⟩
    · show (e - now).toNat / 1000
        = (e - now).toNat / 1000 / 60 * 60 + (e - now).toNat / 1000 % 60
      omega
    · show (e - now).toNat / 1000 % 60 < 60
      omega

/-- Witness for the amended C9 with 61.5 seconds remaining. -/
theorem c9_countdown_components_witness :
    (getCodeTimeRemaining 61500 0).isExpired = false ∧
    (getCodeTimeRemaining 61500 0).totalSeconds
      = (getCodeTimeRemaining 61500 0).minutes * 60
        + (getCodeTimeRemaining 61500 0).seconds := by
  have h : (getCodeTimeRemaining 61500 0).isExpired = false := by decide
  exact ⟨h, (c9_countdown_components 61500 0 h).1⟩

/-! ## Cache invalidation (C6) -/

theorem deleteNodeInvalidates_nodeList (st : Option NodeStatus) :
    deleteNodeInvalidates (nodeKeys_list st) = true := by
  simp [deleteNodeInvalidates, keyMatches, nodeKeys_list, nodeKeys_lists,
    nodeKeys_all, List.isPrefixOf]

theorem lookupEntry_invalidateWhere (p : List KeyPart → Bool)
    (cache : List CacheEntry) (key : List KeyPart) (hp : p key = true) :
    lookupEntry (invalidateWhere p cache) key
      = (lookupEntry cache key).map fun x => { x with fresh := false } := by
  induction cache with
  | nil => rfl
  | cons e rest ih =>
    show List.find? (fun x => x.key == key)
        ((if p e.key = true then { e with fresh := false } else e)
          :: invalidateWhere p rest)
      = Option.map (fun x => { x with fresh := false })
          (List.find? (fun x => x.key == key) (e :: rest))
    cases hk : (e.key == key) with
    | true =>
      have hkey : e.key = key := by simpa using hk
      have hpe : p e.key = true := by rw [hkey]; exact hp
      rw [if_pos hpe]
      simp [List.find?_cons, hk]
    | false =>
      have hik : ((if p e.key = true then { e with fresh := false } else e)
          : CacheEntry).key = e.key := by
        by_cases hpe : p e.key = true
        · rw [if_pos hpe]
        · rw [if_neg hpe]
      simp only [List.find?_cons, hik, hk]
      exact ih

theorem serverGetNodes_after_delete (srv : List Node) (nodeId : String)
    (st : Option NodeStatus) :
    ((serverGetNodes (serverDeleteNode srv nodeId) st).all
      fun n => !(n.id == nodeId)) = true := by
  rw [List.all_eq_true]
  intro n hn
  cases st with
  | none =>
    exact (List.mem_filter.mp hn).2
  | some stt =>
    have hmem := (List.mem_filter.mp hn).1
    exact (List.mem_filter.mp hmem).2

/-- C6: each write mutation invalidates exactly the cache entries its write
can affect: delete-node and update-node invalidate precisely the node-list
keys (update-node additionally exactly that node's detail key), and
generate-code and revoke-code invalidate precisely the code-list keys; and
after a successful node delete the next node-list read (for any status
filter) serves a list without that node id. -/
theorem c6_mutation_invalidation_exact :
    (∀ st, deleteNodeInvalidates (nodeKeys_list st) = true) ∧
    (∀ id, deleteNodeInvalidates (nodeKeys_detail id) = false) ∧
    (∀ id, deleteNodeInvalidates (nodeKeys_statusKey id) = false) ∧
    (∀ id d, deleteNodeInvalidates (nodeKeys_stat id d) = false) ∧
    (∀ id st lim, deleteNodeInvalidates (nodeKeys_session id st lim) = false) ∧
    (∀ b, deleteNodeInvalidates (codeKeys_list b) = false) ∧
    (∀ i st, updateNodeInvalidates i (nodeKeys_list st) = true) ∧
    (∀ i j, updateNodeInvalidates i (nodeKeys_detail j) = true ↔ i = j) ∧
    (∀ i j, updateNodeInvalidates i (nodeKeys_statusKey j) = false) ∧
    (∀ i j d, updateNodeInvalidates i (nodeKeys_stat j d) = false) ∧
    (∀ i j st lim, updateNodeInvalidates i (nodeKeys_session j st lim) = false) ∧
    (∀ i b, updateNodeInvalidates i (codeKeys_list b) = false) ∧
    (∀ b, generateCodeInvalidates (codeKeys_list b) = true) ∧
    (∀ st, generateCodeInvalidates (nodeKeys_list st) = false) ∧
    (∀ id, generateCodeInvalidates (nodeKeys_detail id) = false) ∧
    (∀ b, revokeCodeInvalidates (codeKeys_list b) = true) ∧
    (∀ st, revokeCodeInvalidates (nodeKeys_list st) = false) ∧
    (∀ id, revokeCodeInvalidates (nodeKeys_detail id) = false) ∧
    (∀ (s : ClientState) (nodeId : String) (st : Option NodeStatus),
      ((readNodeList (deleteNodeMutation s nodeId) st).1.all
        fun n => !(n.id == nodeId)) = true) := by
  refine ⟨deleteNodeInvalidates_nodeList, ?_, ?_, ?_, ?_, ?_, ?_, ?_, ?_, ?_,
    ?_, ?_, ?_, ?_, ?_, ?_, ?_, ?_, ?_⟩
  · intro id
    simp [deleteNodeInvalidates, keyMatches, nodeKeys_lists, nodeKeys_all,
      nodeKeys_detail, nodeKeys_details, List.isPrefixOf]
  · intro id
    simp [deleteNodeInvalidates, keyMatches, nodeKeys_lists, nodeKeys_all,
      nodeKeys_statusKey, nodeKeys_statuses, List.isPrefixOf]
  · intro id d
    simp [deleteNodeInvalidates, keyMatches, nodeKeys_lists, nodeKeys_all,
      nodeKeys_stat, nodeKeys_stats, List.isPrefixOf]
  · intro id st lim
    simp [deleteNodeInvalidates, keyMatches, nodeKeys_lists, nodeKeys_all,
      nodeKeys_session, nodeKeys_sessions, List.isPrefixOf]
  · intro b
    simp [deleteNodeInvalidates, keyMatches, nodeKeys_lists, nodeKeys_all,
      codeKeys_list, codeKeys_lists, codeKeys_all, List.isPrefixOf]
  · intro i st
    simp [updateNodeInvalidates, keyMatches, nodeKeys_list, nodeKeys_lists,
      nodeKeys_all, List.isPrefixOf]
  · intro i j
    simp [updateNodeInvalidates, keyMatches, nodeKeys_lists, nodeKeys_all,
      nodeKeys_detail, nodeKeys_details, List.isPrefixOf]
  · intro i j
    simp [updateNodeInvalidates, keyMatches, nodeKeys_lists, nodeKeys_all,
      nodeKeys_detail, nodeKeys_details, nodeKeys_statusKey, nodeKeys_statuses,
      List.isPrefixOf]
  · intro i j d
    simp [updateNodeInvalidates, keyMatches, nodeKeys_lists, nodeKeys_all,
      nodeKeys_detail, nodeKeys_details, nodeKeys_stat, nodeKeys_stats,
      List.isPrefixOf]
  · intro i j st lim
    simp [updateNodeInvalidates, keyMatches, nodeKeys_lists, nodeKeys_all,
      nodeKeys_detail, nodeKeys_details, nodeKeys_session, nodeKeys_sessions,
      List.isPrefixOf]
  · intro i b
    simp [updateNodeInvalidates, keyMatches, nodeKeys_lists, nodeKeys_all,
      nodeKeys_detail, nodeKeys_details, codeKeys_list, codeKeys_lists,
      codeKeys_all, List.isPrefixOf]
  · intro b
    simp [generateCodeInvalidates, keyMatches, codeKeys_list, codeKeys_lists,
      codeKeys_all, List.isPrefixOf]
  · intro st
    simp [generateCodeInvalidates, keyMatches, codeKeys_lists, codeKeys_all,
      nodeKeys_list, nodeKeys_lists, nodeKeys_all, List.isPrefixOf]
  · intro id
    simp [generateCodeInvalidates, keyMatches, codeKeys_lists, codeKeys_all,
      nodeKeys_detail, nodeKeys_details, nodeKeys_all, List.isPrefixOf]
  · intro b
    simp [revokeCodeInvalidates, keyMatches, codeKeys_list, codeKeys_lists,
      codeKeys_all, List.isPrefixOf]
  · intro st
    simp [revokeCodeInvalidates, keyMatches, codeKeys_lists, codeKeys_all,
      nodeKeys_list, nodeKeys_lists, nodeKeys_all, List.isPrefixOf]
  · intro id
    simp [revokeCodeInvalidates, keyMatches, codeKeys_lists, codeKeys_all,
      nodeKeys_detail, nodeKeys_details, nodeKeys_all, List.isPrefixOf]
  · intro s nodeId st
    simp only [readNodeList, deleteNodeMutation]
    rw [lookupEntry_invalidateWhere deleteNodeInvalidates s.cache
      (nodeKeys_list st) (deleteNodeInvalidates_nodeList st)]
    cases hl : lookupEntry s.cache (nodeKeys_list st) with
    | none => exact serverGetNodes_after_delete s.server nodeId st
    | some e => exact serverGetNodes_after_delete s.server nodeId st

/-! ## Aggregated stats (C10) -/

theorem foldl_add_map (f : Node → ℚ) (l : List Node) (a : ℚ) :
    l.foldl (fun sum n => sum + f n) a = a + (l.map f).sum := by
  induction l generalizing a with
  | nil => simp
  | cons x xs ih => simp [ih, add_assoc]

/-- C10: the aggregated-stats computation is total on every node list; the
average uptime is `0` for the empty list (the division is guarded), and for
a non-empty list it is the sum of `online_duration` divided by the node
count. -/
theorem c10_aggregated_stats_total :
    (useAggregatedStats []).avgUptime = 0 ∧
    ∀ (nodes : List Node), nodes ≠ [] →
      (useAggregatedStats nodes).avgUptime
        = (nodes.map Node.online_duration).sum / (nodes.length : ℚ) := by
  constructor
  · rfl
  · intro nodes hne
    show (if nodes.length > 0 then
        nodes.foldl (fun sum n => sum + n.online_duration) 0 / (nodes.length : ℚ)
      else 0) = _
    rw [if_pos (List.length_pos.mpr hne), foldl_add_map Node.online_duration nodes 0,
      zero_add]

/-- A concrete node record for the C10 witness. -/
def witnessNode : Node :=
  ⟨"node-1", "n", .online, "1.2.3.4", 8080, "1.0", "now", 1, 2, 30, 4, true, "t0"⟩

/-- Witness for C10 on a singleton node list. -/
theorem c10_aggregated_stats_total_witness :
    [witnessNode] ≠ ([] : List Node) ∧
    (useAggregatedStats [witnessNode]).avgUptime
      = (([witnessNode].map Node.online_duration).sum / (([witnessNode].length : ℚ))) := by
  refine ⟨by simp, c10_aggregated_stats_total.2 [witnessNode] (by simp)⟩

end AeroNyx
